import Mathlib

/-!
Verification of the session/refresh protocol of the Incisive admin portal
front end.  The definitions below are a shallow embedding of the TypeScript
source: the Next.js middleware (`src/middleware.ts`), the protected layout
(`src/app/(protected)/layout.tsx`), the session-refresh recovery route
(`src/app/api/auth/refresh/route.ts`, `GET` handler), the generic API proxy
(`handleRequest` in the catch-all route), and the cookie-writing helpers of
the auth routes and `src/lib/tokens.ts`.  Backend behaviour (the responses of
`POST /auth/refresh` and `GET /users/me`) is modelled as an oracle structure,
so every theorem quantifies over all backend behaviours.
-/

namespace IncisiveAdmin

/-- The two credential cookies carried by a request.  `none` means the cookie
is absent. -/
structure Cookies where
  access : Option String
  refresh : Option String
deriving DecidableEq, Repr

/-- One `res.cookies.set(name, value, options)` call, with the option fields
actually used by the source.  Options that a call site omits keep the
JavaScript default (absent / false / undefined). -/
structure SetCookie where
  name : String
  value : String
  httpOnly : Bool := false
  secure : Bool := false
  sameSiteLax : Bool := false
  path : Option String := none
  maxAge : Option Nat := none
deriving DecidableEq, Repr

/-- Parsed JSON body of a backend `/auth/refresh` response, after the
`{ success, data }` unwrapping done at every call site.  Both token fields
are optional in the source (`data.accessToken`, `data.refreshToken`). -/
structure RefreshBody where
  accessToken : Option String
  refreshToken : Option String
deriving DecidableEq, Repr

/-- Outcome of a `fetch` of the backend refresh endpoint as observed by the
middleware and the session-refresh route: an `ok` response with a parsed
body, a non-ok response, or a thrown exception. -/
inductive RefreshOutcome
  | ok (body : RefreshBody)
  | notOk
  | thrown
deriving DecidableEq, Repr

/-- Outcome of the layout's `fetch` of `GET /users/me` with a bearer token:
a 2xx response carrying a user record (opaque here), a 401, some other
non-2xx status, a thrown error whose cause code is `ECONNREFUSED`, or a
thrown error with any other cause. -/
inductive WhoamiOutcome
  | ok (user : String)
  | unauthorized
  | otherStatus (code : Nat)
  | connRefused
  | otherError
deriving DecidableEq, Repr

/-- The backend and clock behaviour a navigation chain runs against:
`expired t` is the middleware's unverified `isTokenExpiredOrInvalid` check on
an access token, `refreshOutcome t` the backend's answer to a refresh with
refresh token `t`, and `whoami t` its answer to `GET /users/me` with bearer
token `t`.  All are deterministic functions, matching a backend whose
answers depend only on the token presented. -/
structure Backend where
  expired : String → Bool
  refreshOutcome : String → RefreshOutcome
  whoami : String → WhoamiOutcome

/-! ## Cookie writers

One definition per place in the source that writes the credential cookies
with token values.  Field values are transcribed literally from each call
site; in particular the route handlers hardcode `secure: false`, while
`setTokens` in `src/lib/tokens.ts` uses
`secure: process.env.NODE_ENV === 'production'` (the `isProd` parameter).
Writers that never consult the environment still take `isProd` so that
claims about production behaviour can be stated uniformly. -/

/-- `setTokens` in `src/lib/tokens.ts` (spread of `COOKIE_OPTIONS`). -/
def setTokensWrites (isProd : Bool) (a r : String) : List SetCookie :=
  [ { name := "access_token", value := a, httpOnly := true, secure := isProd,
      sameSiteLax := true, path := some "/", maxAge := some (15 * 60) },
    { name := "refresh_token", value := r, httpOnly := true, secure := isProd,
      sameSiteLax := true, path := some "/", maxAge := some (7 * 24 * 60 * 60) } ]

/-- Cookie writes of `POST /api/auth/login` on success. -/
def loginRouteWrites (_isProd : Bool) (a r : String) : List SetCookie :=
  [ { name := "access_token", value := a, httpOnly := true, secure := false,
      sameSiteLax := true, path := some "/", maxAge := some (15 * 60) },
    { name := "refresh_token", value := r, httpOnly := true, secure := false,
      sameSiteLax := true, path := some "/", maxAge := some (7 * 24 * 60 * 60) } ]

/-- Cookie writes of `POST /api/auth/register` on success. -/
def registerRouteWrites (_isProd : Bool) (a r : String) : List SetCookie :=
  [ { name := "access_token", value := a, httpOnly := true, secure := false,
      sameSiteLax := true, path := some "/", maxAge := some (15 * 60) },
    { name := "refresh_token", value := r, httpOnly := true, secure := false,
      sameSiteLax := true, path := some "/", maxAge := some (7 * 24 * 60 * 60) } ]

/-- Cookie writes of `POST /api/auth/refresh` on success: the refresh cookie
is written only when the backend body contained `refreshToken`. -/
def refreshRouteWrites (_isProd : Bool) (a : String) (r : Option String) : List SetCookie :=
  { name := "access_token", value := a, httpOnly := true, secure := false,
    sameSiteLax := true, path := some "/", maxAge := some (15 * 60) } ::
  (match r with
   | some rv =>
     [ { name := "refresh_token", value := rv, httpOnly := true, secure := false,
         sameSiteLax := true, path := some "/", maxAge := some (7 * 24 * 60 * 60) } ]
   | none => [])

/-- Cookie writes of `GET /api/auth/session-refresh` on a successful refresh
(the `data.accessToken` branch); refresh cookie conditional on
`data.refreshToken`. -/
def sessionRefreshSetWrites (_isProd : Bool) (a : String) (r : Option String) : List SetCookie :=
  { name := "access_token", value := a, httpOnly := true, secure := false,
    sameSiteLax := true, path := some "/", maxAge := some (15 * 60) } ::
  (match r with
   | some rv =>
     [ { name := "refresh_token", value := rv, httpOnly := true, secure := false,
         sameSiteLax := true, path := some "/", maxAge := some (7 * 24 * 60 * 60) } ]
   | none => [])

/-- Cookie writes of the middleware after a successful proactive refresh;
refresh cookie conditional on `data.refreshToken`. -/
def middlewareSetWrites (_isProd : Bool) (a : String) (r : Option String) : List SetCookie :=
  { name := "access_token", value := a, httpOnly := true, secure := false,
    sameSiteLax := true, path := some "/", maxAge := some (15 * 60) } ::
  (match r with
   | some rv =>
     [ { name := "refresh_token", value := rv, httpOnly := true, secure := false,
         sameSiteLax := true, path := some "/", maxAge := some (7 * 24 * 60 * 60) } ]
   | none => [])

/-- `setTokenCookies` in the generic API proxy (token rotation). -/
def proxySetTokenWrites (_isProd : Bool) (a r : String) : List SetCookie :=
  [ { name := "access_token", value := a, httpOnly := true, secure := false,
      sameSiteLax := true, path := some "/", maxAge := some (15 * 60) },
    { name := "refresh_token", value := r, httpOnly := true, secure := false,
      sameSiteLax := true, path := some "/", maxAge := some (7 * 24 * 60 * 60) } ]

/-- The middleware's and session-refresh route's cookie clears:
`cookies.set(name, '', { path: '/', maxAge: 0 })`. -/
def bareClearWrites : List SetCookie :=
  [ { name := "access_token", value := "", path := some "/", maxAge := some 0 },
    { name := "refresh_token", value := "", path := some "/", maxAge := some 0 } ]

/-- `clearTokenCookies` in the generic API proxy (clears with full options). -/
def proxyClearWrites : List SetCookie :=
  [ { name := "access_token", value := "", httpOnly := true, secure := false,
      sameSiteLax := true, path := some "/", maxAge := some 0 },
    { name := "refresh_token", value := "", httpOnly := true, secure := false,
      sameSiteLax := true, path := some "/", maxAge := some 0 } ]

/-! ## Middleware (`src/middleware.ts`, later revision with proactive refresh) -/

/-- `s.startsWith(p)` of JavaScript, phrased over the character lists so
that concrete instances evaluate inside the kernel. -/
def strStartsWith (s p : String) : Bool :=
  p.data.isPrefixOf s.data

/-- `PUBLIC_PATHS.some((path) => pathname.startsWith(path))`. -/
def isPublicPath (pathname : String) : Bool :=
  strStartsWith pathname "/login" || strStartsWith pathname "/register"

/-- `AUTH_PATHS` is the same list as `PUBLIC_PATHS` in the source. -/
def isAuthPath (pathname : String) : Bool :=
  strStartsWith pathname "/login" || strStartsWith pathname "/register"

/-- Where a `NextResponse.redirect` of this system points. -/
inductive RedirectTarget
  | toUrl (pathname : String)
  | toLoginCallback (callbackUrl : String)
  | toSessionRefresh (redirect : String)
deriving DecidableEq, Repr

/-- A middleware response: either a redirect or `NextResponse.next()`
(carrying the `x-next-pathname` request header in the later revision). -/
inductive MwKind
  | redirect (target : RedirectTarget)
  | next (pathnameHeader : String)
deriving DecidableEq, Repr

/-- A middleware response together with the cookie writes it performs on the
response and whether the backend refresh endpoint was contacted. -/
structure MwResponse where
  kind : MwKind
  writes : List SetCookie
  refreshCalled : Bool
deriving DecidableEq, Repr

/-- The routing block at the bottom of the middleware (auth-page redirect,
unauthenticated redirect, root redirect, pass-through).  `hasAuth` is
computed from the request cookies, as in the source. -/
def mwRoute (pathname : String) (ck : Cookies) (refreshCalled : Bool) : MwResponse :=
  let hasAuth := ck.access.isSome || ck.refresh.isSome
  if hasAuth && isAuthPath pathname then
    ⟨.redirect (.toUrl "/dashboard"), [], refreshCalled⟩
  else if !hasAuth && !isPublicPath pathname && pathname ≠ "/" then
    ⟨.redirect (.toLoginCallback pathname), [], refreshCalled⟩
  else if pathname = "/" then
    if hasAuth then ⟨.redirect (.toUrl "/dashboard"), [], refreshCalled⟩
    else ⟨.redirect (.toUrl "/login"), [], refreshCalled⟩
  else ⟨.next pathname, [], refreshCalled⟩

/-- The middleware's handling of a failed refresh (non-ok response or a body
without `accessToken`): on a non-public, non-root path it clears both
cookies and redirects to login with `callbackUrl`; otherwise control falls
through to the routing block. -/
def mwFail (pathname : String) (ck : Cookies) : MwResponse :=
  if !isPublicPath pathname && pathname ≠ "/" then
    ⟨.redirect (.toLoginCallback pathname), bareClearWrites, true⟩
  else mwRoute pathname ck true

/-- The middleware's refresh attempt (`needsRefresh` branch).  A thrown
fetch error is caught, logged and swallowed: control falls through to the
routing block with no cookie change. -/
def mwRefresh (be : Backend) (pathname : String) (ck : Cookies) (rt : String) : MwResponse :=
  match be.refreshOutcome rt with
  | .ok body =>
    match body.accessToken with
    | some a =>
      ⟨.redirect (.toUrl pathname), middlewareSetWrites false a body.refreshToken, true⟩
    | none => mwFail pathname ck
  | .notOk => mwFail pathname ck
  | .thrown => mwRoute pathname ck true

/-- The middleware (later revision).  `needsRefresh` is
`refreshToken && (!accessToken || isTokenExpiredOrInvalid(accessToken))`. -/
def middleware (be : Backend) (pathname : String) (ck : Cookies) : MwResponse :=
  match ck.refresh with
  | none => mwRoute pathname ck false
  | some rt =>
    match ck.access with
    | none => mwRefresh be pathname ck rt
    | some a =>
      if be.expired a then mwRefresh be pathname ck rt
      else mwRoute pathname ck false

/-- The earlier middleware revision (no proactive refresh): pure routing on
cookie presence. -/
def middlewareV0 (pathname : String) (ck : Cookies) : MwResponse :=
  let hasAuth := ck.access.isSome || ck.refresh.isSome
  if hasAuth && isAuthPath pathname then
    ⟨.redirect (.toUrl "/dashboard"), [], false⟩
  else if !hasAuth && !isPublicPath pathname && pathname ≠ "/" then
    ⟨.redirect (.toLoginCallback pathname), [], false⟩
  else if pathname = "/" then
    if hasAuth then ⟨.redirect (.toUrl "/dashboard"), [], false⟩
    else ⟨.redirect (.toUrl "/login"), [], false⟩
  else ⟨.next pathname, [], false⟩

/-! ## Protected layout (`src/app/(protected)/layout.tsx`) -/

/-- The `SessionResult` union of the layout source. -/
inductive SessionResult
  | success (user : String) (accessToken : String)
  | noSession
  | needsRefresh (pathname : String)
  | serverError (message : String)
deriving DecidableEq, Repr

/-- `getSession`: no tokens at all or no access token gives `no_session`;
otherwise the whoami call is classified by status, with a thrown
`ECONNREFUSED` giving `server_error` and any other thrown error
`no_session`.  `pathnameHeader` is the `x-next-pathname` request header set
by the middleware (the `x-invoke-path` fallback is never set in this app),
defaulting to `/dashboard`. -/
def getSession (be : Backend) (ck : Cookies) (pathnameHeader : Option String) : SessionResult :=
  match ck.access, ck.refresh with
  | none, none => .noSession
  | none, some _ => .noSession
  | some token, _ =>
    match be.whoami token with
    | .unauthorized => .needsRefresh (pathnameHeader.getD "/dashboard")
    | .otherStatus _ => .noSession
    | .ok user => .success user token
    | .connRefused =>
      .serverError "Unable to connect to the server. Please ensure the backend service is running."
    | .otherError => .noSession

/-- What the protected layout resolves to for one request. -/
inductive LayoutOutcome
  | renderProtected (user : String) (accessToken : String)
  | renderServerError (message : String)
  | redirect (target : RedirectTarget)
deriving DecidableEq, Repr

/-- `ProtectedLayout`: renders the inline `ServerError` view on
`server_error`, redirects to the session-refresh route on `needs_refresh`,
redirects to `/login` on `no_session`, and renders the protected client
layout with the session on `success`. -/
def protectedLayout (be : Backend) (ck : Cookies) (pathnameHeader : Option String) :
    LayoutOutcome :=
  match getSession be ck pathnameHeader with
  | .serverError m => .renderServerError m
  | .needsRefresh p => .redirect (.toSessionRefresh p)
  | .noSession => .redirect (.toUrl "/login")
  | .success u t => .renderProtected u t

/-! ## Recovery endpoint (`GET` handler of the session-refresh route) -/

/-- A session-refresh response: always a redirect, with its cookie writes. -/
structure SRResult where
  target : RedirectTarget
  writes : List SetCookie
deriving DecidableEq, Repr

/-- The `GET /api/auth/session-refresh` handler.  `redirectParam` is the
`redirect` query parameter.  No refresh cookie: clear both and go to login.
Otherwise call the backend; an ok response whose body has `accessToken`
writes the rotated tokens and redirects to the requested path; every other
case (non-ok, ok without `accessToken`, thrown error) clears both cookies
and redirects to login. -/
def sessionRefreshGET (be : Backend) (ck : Cookies) (redirectParam : Option String) : SRResult :=
  let redirectTo := redirectParam.getD "/dashboard"
  match ck.refresh with
  | none => ⟨.toUrl "/login", bareClearWrites⟩
  | some rt =>
    match be.refreshOutcome rt with
    | .ok body =>
      match body.accessToken with
      | some a => ⟨.toUrl redirectTo, sessionRefreshSetWrites false a body.refreshToken⟩
      | none => ⟨.toUrl "/login", bareClearWrites⟩
    | .notOk => ⟨.toUrl "/login", bareClearWrites⟩
    | .thrown => ⟨.toUrl "/login", bareClearWrites⟩

/-! ## Generic API proxy (`handleRequest` in the catch-all route) -/

/-- Backend as seen by one proxied call: the downstream status as a function
of the bearer token attached (`none` = no `Authorization` header), and
`refreshAccessToken`'s result (`none` on a non-ok response or a thrown
error, otherwise the parsed, unwrapped body). -/
structure ProxyBackend where
  downstream : Option String → Nat
  refreshResult : String → Option RefreshBody

/-- The proxy's response as far as the claims are concerned: final status,
cookie writes in the order performed, the `X-Auth-Redirect` header, and how
many refresh / downstream calls were made. -/
structure ProxyResult where
  status : Nat
  writes : List SetCookie
  xAuthRedirect : Bool
  refreshCalls : Nat
  downstreamCalls : Nat
deriving DecidableEq, Repr

/-- The tail of `handleRequest` after the optional refresh+retry: the 204
short-circuit, then cookie rotation, then the terminal-401 clearing and
`X-Auth-Redirect` header. -/
def proxyFinish (status : Nat) (newTokens : Option RefreshBody)
    (refreshCalls downstreamCalls : Nat) : ProxyResult :=
  let setW : List SetCookie :=
    match newTokens with
    | some body =>
      proxySetTokenWrites false (body.accessToken.getD "") (body.refreshToken.getD "")
    | none => []
  if status = 204 then
    ⟨204, setW, false, refreshCalls, downstreamCalls⟩
  else if status = 401 then
    ⟨status, setW ++ proxyClearWrites, true, refreshCalls, downstreamCalls⟩
  else
    ⟨status, setW, false, refreshCalls, downstreamCalls⟩

/-- `handleRequest`: forward once with the access-token cookie as bearer; on
a 401 with a refresh cookie present, refresh once and, if the refresh
produced tokens, retry once with the new access token. -/
def proxyHandleRequest (be : ProxyBackend) (ck : Cookies) : ProxyResult :=
  let s1 := be.downstream ck.access
  match ck.refresh with
  | some rt =>
    if s1 = 401 then
      match be.refreshResult rt with
      | some body =>
        proxyFinish (be.downstream body.accessToken) (some body) 1 2
      | none => proxyFinish s1 none 1 1
    else proxyFinish s1 none 0 1
  | none => proxyFinish s1 none 0 1

/-- The last write a response performs for a cookie name (later
`cookies.set` calls replace earlier ones for the same name). -/
def lastCookieWrite (writes : List SetCookie) (name : String) : Option SetCookie :=
  writes.reverse.find? (fun w => w.name = name)

/-- A response leaves a cookie cleared when its last write for that name
sets the empty value with `maxAge: 0`. -/
def cookieCleared (writes : List SetCookie) (name : String) : Bool :=
  match lastCookieWrite writes name with
  | some w => w.value = "" && w.maxAge = some 0
  | none => false

/-! ## The navigation chain (middleware, layout, recovery endpoint) -/

/-- A point in a redirect chain: the browser is requesting a page path with
some cookies, or the session-refresh endpoint with a `redirect` parameter. -/
inductive ChainState
  | page (pathname : String) (ck : Cookies)
  | sessionRef (redirectParam : String) (ck : Cookies)
deriving DecidableEq, Repr

/-- A terminal response of a chain: a rendered page (public or protected),
or the inline server-error view. -/
inductive ChainTerminal
  | renderPublic (pathname : String)
  | renderProtected (pathname user accessToken : String)
  | renderServerError (message : String)
deriving DecidableEq, Repr

/-- Apply one cookie write to the browser's cookie jar: `maxAge: 0` deletes,
anything else stores the value. -/
def applyWrite (ck : Cookies) (w : SetCookie) : Cookies :=
  if w.name = "access_token" then
    { ck with access := if w.maxAge = some 0 then none else some w.value }
  else if w.name = "refresh_token" then
    { ck with refresh := if w.maxAge = some 0 then none else some w.value }
  else ck

/-- Apply a response's cookie writes in order. -/
def applyWrites (ck : Cookies) (writes : List SetCookie) : Cookies :=
  writes.foldl applyWrite ck

/-- The chain state a redirect leads to (cookies already updated).  A
redirect to `/login?callbackUrl=...` requests the `/login` page. -/
def targetToState (target : RedirectTarget) (ck : Cookies) : ChainState :=
  match target with
  | .toUrl p => .page p ck
  | .toLoginCallback _ => .page "/login" ck
  | .toSessionRefresh q => .sessionRef q ck

/-- One request of the chain: run the middleware; a pass-through renders the
public page on a public path and otherwise runs the protected layout (the
middleware's matcher excludes `/api`, so a request to the session-refresh
endpoint goes straight to its handler). -/
def chainStep (be : Backend) (s : ChainState) : ChainState ⊕ ChainTerminal :=
  match s with
  | .sessionRef param ck =>
    let r := sessionRefreshGET be ck (some param)
    .inl (targetToState r.target (applyWrites ck r.writes))
  | .page p ck =>
    let m := middleware be p ck
    match m.kind with
    | .redirect target => .inl (targetToState target (applyWrites ck m.writes))
    | .next ph =>
      if isPublicPath p then .inr (.renderPublic p)
      else
        match protectedLayout be ck (some ph) with
        | .renderProtected u t => .inr (.renderProtected p u t)
        | .renderServerError msg => .inr (.renderServerError msg)
        | .redirect target => .inl (targetToState target ck)

/-- Run up to `n` requests of the chain; a terminal response is absorbing. -/
def chainRun (be : Backend) : Nat → ChainState → ChainState ⊕ ChainTerminal
  | 0, s => .inl s
  | n + 1, s =>
    match chainStep be s with
    | .inl s2 => chainRun be n s2
    | .inr t => .inr t

/-- A backend whose answers are consistent with token semantics: refresh
calls never throw; a successful refresh carries an access token that passes
the middleware's freshness check and that whoami accepts; and whoami answers
only 2xx, 401, or connection-refused. -/
def GoodBackend (be : Backend) : Prop :=
  (∀ t, be.refreshOutcome t ≠ .thrown) ∧
  (∀ t body, be.refreshOutcome t = .ok body →
    ∃ a, body.accessToken = some a ∧ be.expired a = false ∧ ∃ u, be.whoami a = .ok u) ∧
  (∀ t, (∃ u, be.whoami t = .ok u) ∨ be.whoami t = .unauthorized ∨ be.whoami t = .connRefused)

/-- Whether a layout outcome renders protected content. -/
def LayoutOutcome.isProtectedRender : LayoutOutcome → Bool
  | .renderProtected _ _ => true
  | _ => false

/-- Whether a layout outcome is a redirect. -/
def LayoutOutcome.isRedirect : LayoutOutcome → Bool
  | .redirect _ => true
  | _ => false

/-! ## Concrete instances used by witnesses and counterexamples -/

/-- A backend whose whoami call always throws `ECONNREFUSED`. -/
def connDownBe : Backend :=
  ⟨fun _ => false, fun _ => .notOk, fun _ => .connRefused⟩

/-- A backend that always refreshes successfully but returns a body with an
access token only (no rotated refresh token). -/
def accessOnlyRefreshBe : Backend :=
  ⟨fun _ => false, fun _ => .ok ⟨some "newAccess", none⟩, fun _ => .unauthorized⟩

/-- A backend whose refresh calls always throw. -/
def throwingRefreshBe : Backend :=
  ⟨fun _ => true, fun _ => .thrown, fun _ => .unauthorized⟩

/-- A backend that always refreshes successfully with a rotated pair. -/
def rotatingRefreshBe : Backend :=
  ⟨fun _ => true, fun _ => .ok ⟨some "freshA", some "freshR"⟩, fun _ => .ok "user"⟩

/-- A backend whose refresh always returns non-ok and whoami always 2xx. -/
def plainOkBe : Backend :=
  ⟨fun _ => false, fun _ => .notOk, fun _ => .ok "user"⟩

/-- A proxy backend that answers 401 regardless of credentials and refuses
to refresh. -/
def stubbornProxyBe : ProxyBackend :=
  ⟨fun _ => 401, fun _ => none⟩

/-- `hasValidTokens` from `src/lib/tokens.ts`:
`!!(accessToken || refreshToken)` — mere presence of either cookie. -/
def hasValidTokens (ck : Cookies) : Bool :=
  ck.access.isSome || ck.refresh.isSome

/-- Attributes every credential write is claimed to carry: httpOnly,
`SameSite=Lax`, path `/`. -/
def credWriteOk (w : SetCookie) : Bool :=
  w.httpOnly && w.sameSiteLax && (w.path = some "/")

/-- All credential-writing call sites of the system, concatenated: the
credential-store helper, login, register, refresh, session-refresh,
middleware refresh, and proxy rotation. -/
def allCredWriters (isProd : Bool) (a r : String) (ro : Option String) : List SetCookie :=
  setTokensWrites isProd a r ++ loginRouteWrites isProd a r ++
  registerRouteWrites isProd a r ++ refreshRouteWrites isProd a ro ++
  sessionRefreshSetWrites isProd a ro ++ middlewareSetWrites isProd a ro ++
  proxySetTokenWrites isProd a r

/-- The redirect chain from a state terminates when some number of requests
reaches a terminal response. -/
def chainTerminates (be : Backend) (s : ChainState) : Prop :=
  ∃ n, (chainRun be n s).isRight = true

/-- The backend and start state exhibiting a non-terminating chain: every
refresh "succeeds" but returns the same corrupt access token, so the
middleware keeps redirecting to the same URL with unchanged cookies. -/
def loopBe : Backend :=
  ⟨fun _ => true, fun _ => .ok ⟨some "bad", none⟩, fun _ => .unauthorized⟩

/-- The state the chain loops on under `loopBe`. -/
def loopState : ChainState :=
  .page "/dashboard" ⟨some "bad", some "r"⟩

/-! ## C6 — no-cookie request to a protected path -/

/-- C6: a request to a protected path (one not under the `/login` or
`/register` public prefixes and not `/`) carrying neither credential cookie
is redirected to the login page with `callbackUrl` equal to the requested
pathname, with no cookie changes and no backend call; this holds in both
middleware revisions. -/
theorem c6_no_cookie_login_redirect (be : Backend) (pathname : String)
    (hpub : isPublicPath pathname = false) (hroot : pathname ≠ "/") :
    middleware be pathname ⟨none, none⟩ =
      ⟨.redirect (.toLoginCallback pathname), [], false⟩ ∧
    middlewareV0 pathname ⟨none, none⟩ =
      ⟨.redirect (.toLoginCallback pathname), [], false⟩ := by
  have hauth : isAuthPath pathname = false := hpub
  constructor
  · simp [middleware, mwRoute, hpub, hauth, hroot]
  · simp [middlewareV0, hpub, hauth, hroot]

/-- Witness for C6 at the concrete path `/dashboard`. -/
theorem c6_no_cookie_login_redirect_witness :
    middleware plainOkBe "/dashboard" ⟨none, none⟩ =
      ⟨.redirect (.toLoginCallback "/dashboard"), [], false⟩ ∧
    middlewareV0 "/dashboard" ⟨none, none⟩ =
      ⟨.redirect (.toLoginCallback "/dashboard"), [], false⟩ :=
  c6_no_cookie_login_redirect plainOkBe "/dashboard" (by decide) (by decide)

/-! ## C4 — backend unreachable is surfaced, not redirected -/

/-- C4: when an access token is present and the whoami fetch throws a
connection-refused error, the session gate classifies the result as
`server_error` and the layout renders the inline service-unavailable view;
in particular the outcome is not a redirect (to login or anywhere else). -/
theorem c4_conn_refused_renders_inline (be : Backend) (ck : Cookies)
    (ph : Option String) (t : String)
    (hacc : ck.access = some t) (hconn : be.whoami t = .connRefused) :
    protectedLayout be ck ph =
      .renderServerError
        "Unable to connect to the server. Please ensure the backend service is running." ∧
    (protectedLayout be ck ph).isRedirect = false := by
  obtain ⟨a, r⟩ := ck
  cases hacc
  cases r <;> simp [protectedLayout, getSession, hconn, LayoutOutcome.isRedirect]

/-- Witness for C4 on a concrete always-refusing backend. -/
theorem c4_conn_refused_renders_inline_witness :
    protectedLayout connDownBe ⟨some "tok", some "ref"⟩ (some "/dashboard") =
      .renderServerError
        "Unable to connect to the server. Please ensure the backend service is running." ∧
    (protectedLayout connDownBe ⟨some "tok", some "ref"⟩ (some "/dashboard")).isRedirect
      = false :=
  c4_conn_refused_renders_inline connDownBe ⟨some "tok", some "ref"⟩
    (some "/dashboard") "tok" rfl rfl

/-! ## C2 — proxy refreshes once, retries once, terminal 401 clears -/

/-- C2: on any proxied call, the refresh endpoint is contacted exactly once
when the first downstream answer is 401 and a refresh cookie exists, and
never otherwise; at most two downstream calls are ever made (the original
and at most one retry); and whenever the final status is 401 the response
leaves both credential cookies cleared and carries `X-Auth-Redirect: true`.
The proxy result is a plain response, never a server-side redirect. -/
theorem c2_proxy_single_retry (be : ProxyBackend) (ck : Cookies) :
    (proxyHandleRequest be ck).refreshCalls =
      (if be.downstream ck.access = 401 ∧ ck.refresh.isSome then 1 else 0) ∧
    (proxyHandleRequest be ck).downstreamCalls ≤ 2 ∧
    ((proxyHandleRequest be ck).status = 401 →
      cookieCleared (proxyHandleRequest be ck).writes "access_token" = true ∧
      cookieCleared (proxyHandleRequest be ck).writes "refresh_token" = true ∧
      (proxyHandleRequest be ck).xAuthRedirect = true) := by
  obtain ⟨a, r⟩ := ck
  cases r with
  | none =>
    by_cases h1 : be.downstream a = 401
    · simp [proxyHandleRequest, proxyFinish, h1, cookieCleared, lastCookieWrite,
        proxyClearWrites]
    · by_cases h2 : be.downstream a = 204 <;>
        simp [proxyHandleRequest, proxyFinish, h1, h2]
  | some rt =>
    by_cases h1 : be.downstream a = 401
    · cases hr : be.refreshResult rt with
      | none =>
        simp [proxyHandleRequest, proxyFinish, h1, hr, cookieCleared,
          lastCookieWrite, proxyClearWrites]
      | some body =>
        by_cases h2 : be.downstream body.accessToken = 204
        · simp [proxyHandleRequest, proxyFinish, h1, hr, h2]
        · by_cases h3 : be.downstream body.accessToken = 401 <;>
            simp [proxyHandleRequest, proxyFinish, h1, hr, h2, h3, cookieCleared,
              lastCookieWrite, proxyClearWrites, proxySetTokenWrites]
    · by_cases h2 : be.downstream a = 204 <;>
        simp [proxyHandleRequest, proxyFinish, h1, h2]

/-- Witness for C2: a downstream that keeps answering 401 with no usable
refresh leads to a cleared, flagged 401. -/
theorem c2_proxy_single_retry_witness :
    (proxyHandleRequest stubbornProxyBe ⟨some "a", some "r"⟩).refreshCalls = 1 ∧
    cookieCleared (proxyHandleRequest stubbornProxyBe ⟨some "a", some "r"⟩).writes
      "access_token" = true ∧
    cookieCleared (proxyHandleRequest stubbornProxyBe ⟨some "a", some "r"⟩).writes
      "refresh_token" = true ∧
    (proxyHandleRequest stubbornProxyBe ⟨some "a", some "r"⟩).xAuthRedirect = true := by
  have h := c2_proxy_single_retry stubbornProxyBe ⟨some "a", some "r"⟩
  have h3 := h.2.2 (by decide)
  exact ⟨by simpa using h.1, h3.1, h3.2.1, h3.2.2⟩

/-- In the source `AUTH_PATHS` and `PUBLIC_PATHS` are the same list, so the
two path tests coincide. -/
theorem isAuthPath_eq_isPublicPath (p : String) : isAuthPath p = isPublicPath p := rfl

/-! ## C5 — the recovery endpoint -/

/-- C5 counterexample: a successful refresh whose body carries only
`accessToken` redirects to the requested path but writes no `refresh_token`
cookie, so "both rotated tokens are written" fails on this input. -/
theorem c5_session_refresh_cex :
    (sessionRefreshGET accessOnlyRefreshBe ⟨none, some "r"⟩ (some "/tables")).target
      = .toUrl "/tables" ∧
    lastCookieWrite
      (sessionRefreshGET accessOnlyRefreshBe ⟨none, some "r"⟩ (some "/tables")).writes
      "refresh_token" = none := by
  constructor <;> rfl

/-- C5 amended: with no refresh cookie the endpoint clears both cookies and
redirects to login; on a successful refresh whose body contains
`accessToken` it redirects to the `redirect` parameter (default
`/dashboard`), always writes the rotated access token, and writes the
rotated refresh token exactly when the body contains one; on a failed
refresh, a body without `accessToken`, or a thrown error it clears both
cookies and redirects to login. -/
theorem c5_session_refresh_amended (be : Backend) (ck : Cookies) (param : Option String) :
    (ck.refresh = none →
      sessionRefreshGET be ck param = ⟨.toUrl "/login", bareClearWrites⟩) ∧
    (∀ rt body a, ck.refresh = some rt → be.refreshOutcome rt = .ok body →
      body.accessToken = some a →
      (sessionRefreshGET be ck param).target = .toUrl (param.getD "/dashboard") ∧
      lastCookieWrite (sessionRefreshGET be ck param).writes "access_token" =
        some { name := "access_token", value := a, httpOnly := true, secure := false,
               sameSiteLax := true, path := some "/", maxAge := some (15 * 60) } ∧
      (∀ rv, body.refreshToken = some rv →
        lastCookieWrite (sessionRefreshGET be ck param).writes "refresh_token" =
          some { name := "refresh_token", value := rv, httpOnly := true, secure := false,
                 sameSiteLax := true, path := some "/",
                 maxAge := some (7 * 24 * 60 * 60) }) ∧
      (body.refreshToken = none →
        lastCookieWrite (sessionRefreshGET be ck param).writes "refresh_token" = none)) ∧
    (∀ rt, ck.refresh = some rt →
      (be.refreshOutcome rt = .notOk ∨ be.refreshOutcome rt = .thrown ∨
        (∃ body, be.refreshOutcome rt = .ok body ∧ body.accessToken = none)) →
      sessionRefreshGET be ck param = ⟨.toUrl "/login", bareClearWrites⟩) := by
  obtain ⟨a0, r⟩ := ck
  refine ⟨?_, ?_, ?_⟩
  · intro h
    subst h
    rfl
  · intro rt body a hr hok ha
    subst hr
    cases hrv : body.refreshToken <;>
      simp [sessionRefreshGET, hok, ha, hrv, sessionRefreshSetWrites,
        lastCookieWrite]
  · intro rt hr hfail
    subst hr
    rcases hfail with h | h | ⟨body, hok, hnone⟩
    · simp [sessionRefreshGET, h]
    · simp [sessionRefreshGET, h]
    · simp [sessionRefreshGET, hok, hnone]

/-- Witness for C5: concrete success and failure instances. -/
theorem c5_session_refresh_amended_witness :
    sessionRefreshGET plainOkBe ⟨some "x", none⟩ none = ⟨.toUrl "/login", bareClearWrites⟩ ∧
    (sessionRefreshGET accessOnlyRefreshBe ⟨none, some "r"⟩ none).target
      = .toUrl "/dashboard" ∧
    sessionRefreshGET plainOkBe ⟨none, some "r"⟩ (some "/p")
      = ⟨.toUrl "/login", bareClearWrites⟩ := by
  refine ⟨?_, ?_, ?_⟩
  · exact (c5_session_refresh_amended plainOkBe ⟨some "x", none⟩ none).1 rfl
  · exact ((c5_session_refresh_amended accessOnlyRefreshBe ⟨none, some "r"⟩ none).2.1
      "r" ⟨some "newAccess", none⟩ "newAccess" rfl rfl rfl).1
  · exact (c5_session_refresh_amended plainOkBe ⟨none, some "r"⟩ (some "/p")).2.2
      "r" rfl (Or.inl rfl)

/-! ## C7 — middleware refresh failure -/

/-- C7 counterexample: a thrown error during the middleware's refresh
attempt on a protected path is swallowed — the middleware neither clears the
cookies nor redirects, it passes the request through. -/
theorem c7_refresh_failure_cex :
    middleware throwingRefreshBe "/dashboard" ⟨none, some "r"⟩ =
      ⟨.next "/dashboard", [], true⟩ ∧
    (middleware throwingRefreshBe "/dashboard" ⟨none, some "r"⟩).kind ≠
      .redirect (.toLoginCallback "/dashboard") := by
  constructor
  · rfl
  · decide

/-- C7 amended: when the middleware's refresh attempt fails with a non-ok
response or a body lacking `accessToken`, on a non-public, non-root path it
clears both cookies and redirects to login with the original path as
`callbackUrl`; on a public/auth path no redirect is forced by the failure —
the request falls through to the routing rules (which send it to the
dashboard since a refresh cookie is present).  A thrown refresh error,
by contrast, is swallowed and forces neither clearing nor a redirect. -/
theorem c7_refresh_failure_amended (be : Backend) (p : String) (ck : Cookies) (rt : String)
    (hr : ck.refresh = some rt)
    (hneed : ck.access = none ∨ ∃ a, ck.access = some a ∧ be.expired a = true)
    (hfail : be.refreshOutcome rt = .notOk ∨
      ∃ body, be.refreshOutcome rt = .ok body ∧ body.accessToken = none) :
    (isPublicPath p = false → p ≠ "/" →
      middleware be p ck = ⟨.redirect (.toLoginCallback p), bareClearWrites, true⟩) ∧
    (isPublicPath p = true →
      middleware be p ck = ⟨.redirect (.toUrl "/dashboard"), [], true⟩) := by
  obtain ⟨a0, r⟩ := ck
  simp only [Cookies.mk.injEq] at hr ⊢
  subst hr
  have hmw : middleware be p ⟨a0, some rt⟩ = mwFail p ⟨a0, some rt⟩ := by
    rcases hneed with h | ⟨a, ha, hexp⟩
    · subst h
      rcases hfail with h2 | ⟨body, hok, hnone⟩
      · simp [middleware, mwRefresh, h2]
      · simp [middleware, mwRefresh, hok, hnone]
    · subst ha
      rcases hfail with h2 | ⟨body, hok, hnone⟩
      · simp [middleware, mwRefresh, hexp, h2]
      · simp [middleware, mwRefresh, hexp, hok, hnone]
  constructor
  · intro hpub hroot
    rw [hmw]
    simp [mwFail, hpub, hroot]
  · intro hpub
    rw [hmw]
    have hauth : isAuthPath p = true := hpub
    simp [mwFail, mwRoute, hpub, hauth]

/-- Witness for C7 on a backend whose refresh always answers non-ok. -/
theorem c7_refresh_failure_amended_witness :
    middleware plainOkBe "/tables" ⟨none, some "r"⟩ =
      ⟨.redirect (.toLoginCallback "/tables"), bareClearWrites, true⟩ ∧
    middleware plainOkBe "/login" ⟨none, some "r"⟩ =
      ⟨.redirect (.toUrl "/dashboard"), [], true⟩ := by
  have h1 := c7_refresh_failure_amended plainOkBe "/tables" ⟨none, some "r"⟩ "r"
    rfl (Or.inl rfl) (Or.inl rfl)
  have h2 := c7_refresh_failure_amended plainOkBe "/login" ⟨none, some "r"⟩ "r"
    rfl (Or.inl rfl) (Or.inl rfl)
  exact ⟨h1.1 (by decide) (by decide), h2.2 (by decide)⟩

/-! ## C9 — authenticated visitor on an auth page -/

/-- C9 counterexample: a request to `/login` carrying only a refresh token
triggers a refresh attempt first; when it succeeds, the middleware redirects
back to `/login` itself (to apply the new cookies), not to the dashboard,
and the backend refresh endpoint was contacted. -/
theorem c9_auth_page_cex :
    middleware rotatingRefreshBe "/login" ⟨none, some "r"⟩ =
      ⟨.redirect (.toUrl "/login"), middlewareSetWrites false "freshA" (some "freshR"),
        true⟩ ∧
    (middleware rotatingRefreshBe "/login" ⟨none, some "r"⟩).kind ≠
      .redirect (.toUrl "/dashboard") := by
  constructor
  · rfl
  · decide

/-- C9 amended: a request to an auth page carrying an access token that
passes the middleware's freshness check is redirected to `/dashboard`
without contacting the backend refresh endpoint and without cookie changes;
a request carrying only a refresh token first undergoes a refresh attempt,
and on success is redirected back to the same URL with the rotated tokens
rather than to the dashboard. -/
theorem c9_auth_page_amended (be : Backend) (p : String) (ck : Cookies) :
    (∀ a, isAuthPath p = true → ck.access = some a → be.expired a = false →
      middleware be p ck = ⟨.redirect (.toUrl "/dashboard"), [], false⟩) ∧
    (∀ rt body a2, ck.access = none → ck.refresh = some rt →
      be.refreshOutcome rt = .ok body → body.accessToken = some a2 →
      middleware be p ck =
        ⟨.redirect (.toUrl p), middlewareSetWrites false a2 body.refreshToken, true⟩) := by
  obtain ⟨a0, r⟩ := ck
  constructor
  · intro a hauth hacc hfresh
    simp only [Cookies.mk.injEq] at hacc
    subst hacc
    cases r with
    | none => simp [middleware, mwRoute, hauth]
    | some rt => simp [middleware, mwRoute, hfresh, hauth]
  · intro rt body a2 hacc hr hok ha
    subst hacc
    subst hr
    simp [middleware, mwRefresh, hok, ha]

/-- Witness for C9: a fresh access token at `/login` goes straight to the
dashboard; a lone refresh token first causes a same-URL refresh redirect. -/
theorem c9_auth_page_amended_witness :
    middleware plainOkBe "/login" ⟨some "tok", none⟩ =
      ⟨.redirect (.toUrl "/dashboard"), [], false⟩ ∧
    middleware rotatingRefreshBe "/register" ⟨none, some "r"⟩ =
      ⟨.redirect (.toUrl "/register"), middlewareSetWrites false "freshA" (some "freshR"),
        true⟩ := by
  constructor
  · exact (c9_auth_page_amended plainOkBe "/login" ⟨some "tok", none⟩).1
      "tok" (by decide) rfl rfl
  · exact (c9_auth_page_amended rotatingRefreshBe "/register" ⟨none, some "r"⟩).2
      "r" ⟨some "freshA", some "freshR"⟩ "freshA" rfl rfl rfl rfl

/-! ## C10 — presence-only credential test -/

/-- C10 counterexample: with a refresh token the backend accepts, the
middleware's refresh attempt succeeds and the response to `/login` is a
redirect back to `/login` with the rotated cookies — not the claimed
redirect to `/dashboard`. -/
theorem c10_presence_cex :
    (middleware rotatingRefreshBe "/login" ⟨none, some "liveRefresh"⟩).kind =
      .redirect (.toUrl "/login") ∧
    (middleware rotatingRefreshBe "/login" ⟨none, some "liveRefresh"⟩).kind ≠
      .redirect (.toUrl "/dashboard") := by
  constructor
  · rfl
  · decide

/-- C10 amended: `hasValidTokens` is true with only a refresh token present
(any string, no expiry or signature check is performed), and it coincides
with the middleware's `hasAuth` presence disjunction; a request to `/login`
carrying only a refresh token is redirected to `/dashboard` whenever the
refresh attempt does not succeed (non-ok response or thrown error) — and in
the earlier middleware revision unconditionally — while a successful
refresh instead redirects back to `/login` with the rotated tokens. -/
theorem c10_presence_amended (be : Backend) (r : String) :
    hasValidTokens ⟨none, some r⟩ = true ∧
    (∀ ck : Cookies, hasValidTokens ck = (ck.access.isSome || ck.refresh.isSome)) ∧
    ((be.refreshOutcome r = .notOk ∨ be.refreshOutcome r = .thrown) →
      middleware be "/login" ⟨none, some r⟩ =
        ⟨.redirect (.toUrl "/dashboard"), [], true⟩) ∧
    middlewareV0 "/login" ⟨none, some r⟩ = ⟨.redirect (.toUrl "/dashboard"), [], false⟩ := by
  refine ⟨rfl, fun ck => rfl, ?_, rfl⟩
  rintro (h | h)
  · simp [middleware, mwRefresh, mwFail, mwRoute, h, isPublicPath, isAuthPath,
      strStartsWith]
  · simp [middleware, mwRefresh, mwRoute, h, isAuthPath, strStartsWith]

/-- Witness for C10 with a refresh token the backend rejects. -/
theorem c10_presence_amended_witness :
    hasValidTokens ⟨none, some "anything"⟩ = true ∧
    middleware plainOkBe "/login" ⟨none, some "anything"⟩ =
      ⟨.redirect (.toUrl "/dashboard"), [], true⟩ := by
  have h := c10_presence_amended plainOkBe "anything"
  exact ⟨h.1, h.2.2.1 (Or.inl rfl)⟩

/-! ## C1 — the session gate's outcomes -/

/-- C1 counterexample: when the whoami fetch throws a connection-refused
error, the gate resolves to the inline server-error view — neither a
backend-confirmed protected render nor a redirect, so "exactly one of the
two outcomes holds" fails on this request. -/
theorem c1_gate_cex :
    (protectedLayout connDownBe ⟨some "tok", none⟩ (some "/dashboard")).isProtectedRender
      = false ∧
    (protectedLayout connDownBe ⟨some "tok", none⟩ (some "/dashboard")).isRedirect
      = false := by
  constructor <;> rfl

/-- C1 amended: after the gate resolves, at most one of
{backend-confirmed protected render, redirect} holds; protected content is
rendered only when the request's access token was confirmed by a 2xx whoami
response in that same render, and every outcome that is not such a render is
either a redirect away or the inline service-unavailable view. -/
theorem c1_gate_amended (be : Backend) (ck : Cookies) (ph : Option String) :
    (∀ u t, protectedLayout be ck ph = .renderProtected u t →
      ck.access = some t ∧ be.whoami t = .ok u) ∧
    ((protectedLayout be ck ph).isProtectedRender = false →
      (protectedLayout be ck ph).isRedirect = true ∨
      ∃ m, protectedLayout be ck ph = .renderServerError m) ∧
    ¬((protectedLayout be ck ph).isProtectedRender = true ∧
      (protectedLayout be ck ph).isRedirect = true) := by
  obtain ⟨a, r⟩ := ck
  cases a with
  | none =>
    cases r <;>
      simp [protectedLayout, getSession, LayoutOutcome.isProtectedRender,
        LayoutOutcome.isRedirect]
  | some t =>
    cases hw : be.whoami t with
    | ok u =>
      cases r <;>
        simp [protectedLayout, getSession, hw, LayoutOutcome.isProtectedRender,
          LayoutOutcome.isRedirect]
    | unauthorized =>
      cases r <;>
        simp [protectedLayout, getSession, hw, LayoutOutcome.isProtectedRender,
          LayoutOutcome.isRedirect]
    | otherStatus c =>
      cases r <;>
        simp [protectedLayout, getSession, hw, LayoutOutcome.isProtectedRender,
          LayoutOutcome.isRedirect]
    | connRefused =>
      cases r <;>
        simp [protectedLayout, getSession, hw, LayoutOutcome.isProtectedRender,
          LayoutOutcome.isRedirect]
    | otherError =>
      cases r <;>
        simp [protectedLayout, getSession, hw, LayoutOutcome.isProtectedRender,
          LayoutOutcome.isRedirect]

/-- Witness for C1: a confirmed render yields exactly the whoami-accepted
token, and a server-error outcome falls in the redirect-or-inline-view
alternative. -/
theorem c1_gate_amended_witness :
    ((⟨some "tok", none⟩ : Cookies).access = some "tok" ∧
      plainOkBe.whoami "tok" = .ok "user") ∧
    ((protectedLayout connDownBe ⟨some "tok", none⟩ none).isRedirect = true ∨
      ∃ m, protectedLayout connDownBe ⟨some "tok", none⟩ none = .renderServerError m) := by
  constructor
  · exact (c1_gate_amended plainOkBe ⟨some "tok", none⟩ none).1 "user" "tok" rfl
  · exact (c1_gate_amended connDownBe ⟨some "tok", none⟩ none).2.1 rfl

/-! ## C8 — credential cookie attributes -/

/-- C8 counterexample: in production (`isProd = true`) the login route still
writes both credential cookies with the `Secure` attribute off — the route
handlers hardcode `secure: false`. -/
theorem c8_cookie_attrs_cex :
    (loginRouteWrites true "a" "r").map SetCookie.secure = [false, false] := by
  rfl

/-- C8 amended: every credential write of the system (credential store,
login, register, refresh, session-refresh, middleware refresh, proxy
rotation) is httpOnly with `SameSite=Lax` and path `/`, and every
`refresh_token` write uses a 7-day maxAge; but only the credential-store
helper `setTokens` marks the cookies `Secure` in production — all the route
handlers and the middleware hardcode `Secure` off. -/
theorem c8_cookie_attrs_amended (isProd : Bool) (a r : String) (ro : Option String) :
    (allCredWriters isProd a r ro).all credWriteOk = true ∧
    (allCredWriters isProd a r ro).all
      (fun w => w.name ≠ "refresh_token" || w.maxAge = some (7 * 24 * 60 * 60)) = true ∧
    (setTokensWrites isProd a r).all (fun w => w.secure = isProd) = true ∧
    (loginRouteWrites isProd a r ++ registerRouteWrites isProd a r ++
      refreshRouteWrites isProd a ro ++ sessionRefreshSetWrites isProd a ro ++
      middlewareSetWrites isProd a ro ++ proxySetTokenWrites isProd a r).all
      (fun w => w.secure = false) = true := by
  cases ro <;> cases isProd <;>
    simp [allCredWriters, credWriteOk, setTokensWrites, loginRouteWrites,
      registerRouteWrites, refreshRouteWrites, sessionRefreshSetWrites,
      middlewareSetWrites, proxySetTokenWrites]

/-! ## C3 — the redirect chain -/

/-- C3 counterexample: the chain need not terminate for every backend
behaviour.  Against a backend whose refresh always "succeeds" but returns
the same corrupt access token, a protected-page request loops forever: the
middleware's expiry check keeps failing, the refresh keeps succeeding, and
the same-URL redirect reproduces the exact same request state. -/
theorem c3_chain_cex : ¬ chainTerminates loopBe loopState := by
  have hstep : chainStep loopBe loopState = .inl loopState := rfl
  have hrun : ∀ n, chainRun loopBe n loopState = .inl loopState := by
    intro n
    induction n with
    | zero => rfl
    | succ k ih => simpa [chainRun, hstep] using ih
  rintro ⟨n, hn⟩
  rw [hrun n] at hn
  simp at hn

/-- Reaching a terminal response is preserved by allowing one more
request (terminal responses are absorbing in `chainRun`). -/
theorem chainRun_succ_isRight (be : Backend) :
    ∀ (n : Nat) (s : ChainState), (chainRun be n s).isRight = true →
      (chainRun be (n + 1) s).isRight = true := by
  intro n
  induction n with
  | zero =>
    intro s h
    simp [chainRun] at h
  | succ k ih =>
    intro s h
    cases hs : chainStep be s with
    | inl s2 =>
      have h2 : (chainRun be k s2).isRight = true := by
        simpa [chainRun, hs] using h
      have h3 := ih s2 h2
      simpa [chainRun, hs] using h3
    | inr t => simp [chainRun, hs]

/-- Monotonicity of bounded termination in the request budget. -/
theorem chainRun_isRight_mono (be : Backend) {n m : Nat} (hnm : n ≤ m)
    (s : ChainState) (h : (chainRun be n s).isRight = true) :
    (chainRun be m s).isRight = true := by
  induction hnm with
  | refl => exact h
  | step _ ih => exact chainRun_succ_isRight be _ s ih

/-- Termination composes along one chain step. -/
theorem chainRun_of_step (be : Backend) {s s2 : ChainState}
    (h : chainStep be s = .inl s2) (k : Nat)
    (h2 : (chainRun be k s2).isRight = true) :
    (chainRun be (k + 1) s).isRight = true := by
  simpa [chainRun, h] using h2

/-- A step to a terminal response terminates within any positive budget. -/
theorem chainRun_of_term (be : Backend) {s : ChainState} {t : ChainTerminal}
    (h : chainStep be s = .inr t) (k : Nat) :
    (chainRun be (k + 1) s).isRight = true := by
  simp [chainRun, h]

/-- When no proactive refresh is needed (no refresh cookie, or an access
token passing the freshness check), the middleware is just its routing
block. -/
theorem middleware_no_refresh (be : Backend) (p a : String) (r : Option String)
    (h : r = none ∨ be.expired a = false) :
    middleware be p ⟨some a, r⟩ = mwRoute p ⟨some a, r⟩ false := by
  rcases h with h | h
  · subst h
    rfl
  · cases r with
    | none => rfl
    | some rt => simp [middleware, h]

/-- On a public path the middleware must take a refresh branch when the
access token is missing or stale. -/
theorem middleware_refresh_eq (be : Backend) (p rt : String) (acc : Option String)
    (h : acc = none ∨ ∃ a, acc = some a ∧ be.expired a = true) :
    middleware be p ⟨acc, some rt⟩ = mwRefresh be p ⟨acc, some rt⟩ rt := by
  rcases h with h | ⟨a, ha, hexp⟩
  · subst h
    rfl
  · subst ha
    simp [middleware, hexp]

/-- Routing with credentials on an auth page: dashboard redirect. -/
theorem mwRoute_auth (p : String) (ck : Cookies) (b : Bool)
    (hA : (ck.access.isSome || ck.refresh.isSome) = true)
    (hauth : isAuthPath p = true) :
    mwRoute p ck b = ⟨.redirect (.toUrl "/dashboard"), [], b⟩ := by
  simp [mwRoute, hA, hauth]

/-- Routing with credentials on a protected page: pass through. -/
theorem mwRoute_prot (p : String) (ck : Cookies) (b : Bool)
    (hA : (ck.access.isSome || ck.refresh.isSome) = true)
    (hpub : isPublicPath p = false) (hroot : p ≠ "/") :
    mwRoute p ck b = ⟨.next p, [], b⟩ := by
  have hauth : isAuthPath p = false := hpub
  simp [mwRoute, hA, hauth, hpub, hroot]

/-- Routing with credentials at the root: dashboard redirect. -/
theorem mwRoute_root (ck : Cookies) (b : Bool)
    (hA : (ck.access.isSome || ck.refresh.isSome) = true) :
    mwRoute "/" ck b = ⟨.redirect (.toUrl "/dashboard"), [], b⟩ := by
  have hauth : isAuthPath "/" = false := by decide
  simp [mwRoute, hA, hauth]

/-- Routing without credentials on a protected page: login redirect with
callback. -/
theorem mwRoute_noauth_prot (p : String) (ck : Cookies) (b : Bool)
    (hA : (ck.access.isSome || ck.refresh.isSome) = false)
    (hpub : isPublicPath p = false) (hroot : p ≠ "/") :
    mwRoute p ck b = ⟨.redirect (.toLoginCallback p), [], b⟩ := by
  simp [mwRoute, hA, hpub, hroot]

/-- Routing without credentials on a public page: pass through. -/
theorem mwRoute_noauth_public (p : String) (ck : Cookies) (b : Bool)
    (hA : (ck.access.isSome || ck.refresh.isSome) = false)
    (hpub : isPublicPath p = true) :
    mwRoute p ck b = ⟨.next p, [], b⟩ := by
  have hauth : isAuthPath p = true := hpub
  have hroot : p ≠ "/" := by
    intro hq
    rw [hq] at hpub
    exact absurd hpub (by decide)
  simp [mwRoute, hA, hauth, hpub, hroot]

/-- Routing without credentials at the root: plain login redirect. -/
theorem mwRoute_noauth_root (ck : Cookies) (b : Bool)
    (hA : (ck.access.isSome || ck.refresh.isSome) = false) :
    mwRoute "/" ck b = ⟨.redirect (.toUrl "/login"), [], b⟩ := by
  simp [mwRoute, hA, isAuthPath, isPublicPath, strStartsWith]

/-- A cookie-free request to `/login` renders the login page at once. -/
theorem chain_term_clean_login (be : Backend) :
    (chainRun be 1 (.page "/login" ⟨none, none⟩)).isRight = true := by
  have hstep : chainStep be (.page "/login" ⟨none, none⟩) = .inr (.renderPublic "/login") :=
    rfl
  exact chainRun_of_term be hstep 0

/-- A cookie-free request to any path terminates within two requests. -/
theorem chain_term_clean (be : Backend) (p : String) :
    (chainRun be 2 (.page p ⟨none, none⟩)).isRight = true := by
  have hmw : middleware be p ⟨none, none⟩ = mwRoute p ⟨none, none⟩ false := rfl
  cases hpub : isPublicPath p with
  | true =>
    have hm : middleware be p ⟨none, none⟩ = ⟨.next p, [], false⟩ := by
      rw [hmw]
      exact mwRoute_noauth_public p _ false (by simp) hpub
    have hstep : chainStep be (.page p ⟨none, none⟩) = .inr (.renderPublic p) := by
      simp [chainStep, hm, hpub]
    exact chainRun_isRight_mono be (by decide) _ (chainRun_of_term be hstep 0)
  | false =>
    by_cases hroot : p = "/"
    · subst hroot
      have hm : middleware be "/" ⟨none, none⟩ = ⟨.redirect (.toUrl "/login"), [], false⟩ := by
        rw [hmw]
        exact mwRoute_noauth_root _ false (by simp)
      have hstep : chainStep be (.page "/" ⟨none, none⟩) =
          .inl (.page "/login" ⟨none, none⟩) := by
        simp [chainStep, hm, targetToState, applyWrites]
      exact chainRun_of_step be hstep 1 (chain_term_clean_login be)
    · have hm : middleware be p ⟨none, none⟩ =
          ⟨.redirect (.toLoginCallback p), [], false⟩ := by
        rw [hmw]
        exact mwRoute_noauth_prot p _ false (by simp) hpub hroot
      have hstep : chainStep be (.page p ⟨none, none⟩) =
          .inl (.page "/login" ⟨none, none⟩) := by
        simp [chainStep, hm, targetToState, applyWrites]
      exact chainRun_of_step be hstep 1 (chain_term_clean_login be)

/-- A protected-path request with a fresh, whoami-accepted access token
renders protected content at once. -/
theorem chain_term_valid_prot (be : Backend) (p a u : String) (r : Option String)
    (hpub : isPublicPath p = false) (hroot : p ≠ "/")
    (hfresh : r = none ∨ be.expired a = false) (hok : be.whoami a = .ok u) :
    (chainRun be 1 (.page p ⟨some a, r⟩)).isRight = true := by
  have hm : middleware be p ⟨some a, r⟩ = ⟨.next p, [], false⟩ := by
    rw [middleware_no_refresh be p a r hfresh]
    exact mwRoute_prot p _ false (by simp) hpub hroot
  have hl : protectedLayout be ⟨some a, r⟩ (some p) = .renderProtected u a := by
    cases r <;> simp [protectedLayout, getSession, hok]
  have hstep : chainStep be (.page p ⟨some a, r⟩) = .inr (.renderProtected p u a) := by
    simp [chainStep, hm, hpub, hl]
  exact chainRun_of_term be hstep 0

/-- Any request with a fresh, whoami-accepted access token terminates
within two requests. -/
theorem chain_term_valid (be : Backend) (p a u : String) (r : Option String)
    (hfresh : r = none ∨ be.expired a = false) (hok : be.whoami a = .ok u) :
    (chainRun be 2 (.page p ⟨some a, r⟩)).isRight = true := by
  have hA : ((some a : Option String).isSome || r.isSome) = true := by simp
  cases hpub : isPublicPath p with
  | true =>
    have hm : middleware be p ⟨some a, r⟩ =
        ⟨.redirect (.toUrl "/dashboard"), [], false⟩ := by
      rw [middleware_no_refresh be p a r hfresh]
      exact mwRoute_auth p _ false hA hpub
    have hstep : chainStep be (.page p ⟨some a, r⟩) =
        .inl (.page "/dashboard" ⟨some a, r⟩) := by
      simp [chainStep, hm, targetToState, applyWrites]
    exact chainRun_of_step be hstep 1
      (chain_term_valid_prot be "/dashboard" a u r (by decide) (by decide) hfresh hok)
  | false =>
    by_cases hroot : p = "/"
    · subst hroot
      have hm : middleware be "/" ⟨some a, r⟩ =
          ⟨.redirect (.toUrl "/dashboard"), [], false⟩ := by
        rw [middleware_no_refresh be "/" a r hfresh]
        exact mwRoute_root _ false hA
      have hstep : chainStep be (.page "/" ⟨some a, r⟩) =
          .inl (.page "/dashboard" ⟨some a, r⟩) := by
        simp [chainStep, hm, targetToState, applyWrites]
      exact chainRun_of_step be hstep 1
        (chain_term_valid_prot be "/dashboard" a u r (by decide) (by decide) hfresh hok)
    · exact chainRun_isRight_mono be (by decide) _
        (chain_term_valid_prot be p a u r hpub hroot hfresh hok)

/-- A visit to the recovery endpoint whose `redirect` parameter is a
protected path terminates within two further requests, for a backend whose
successful refreshes produce accepted tokens. -/
theorem chain_term_sref_prot (be : Backend) (q : String)
    (hq : isPublicPath q = false) (hqroot : q ≠ "/")
    (hOK : ∀ t body, be.refreshOutcome t = .ok body →
      ∃ a2, body.accessToken = some a2 ∧ be.expired a2 = false ∧
        ∃ u, be.whoami a2 = .ok u)
    (ck : Cookies) :
    (chainRun be 2 (.sessionRef q ck)).isRight = true := by
  obtain ⟨acc, r⟩ := ck
  cases r with
  | none =>
    have hsr : sessionRefreshGET be ⟨acc, none⟩ (some q) =
        ⟨.toUrl "/login", bareClearWrites⟩ := rfl
    have hstep : chainStep be (.sessionRef q ⟨acc, none⟩) =
        .inl (.page "/login" ⟨none, none⟩) := by
      simp [chainStep, hsr, targetToState, applyWrites, applyWrite, bareClearWrites]
    exact chainRun_of_step be hstep 1 (chain_term_clean_login be)
  | some rt =>
    cases hro : be.refreshOutcome rt with
    | notOk =>
      have hsr : sessionRefreshGET be ⟨acc, some rt⟩ (some q) =
          ⟨.toUrl "/login", bareClearWrites⟩ := by
        simp [sessionRefreshGET, hro]
      have hstep : chainStep be (.sessionRef q ⟨acc, some rt⟩) =
          .inl (.page "/login" ⟨none, none⟩) := by
        simp [chainStep, hsr, targetToState, applyWrites, applyWrite, bareClearWrites]
      exact chainRun_of_step be hstep 1 (chain_term_clean_login be)
    | thrown =>
      have hsr : sessionRefreshGET be ⟨acc, some rt⟩ (some q) =
          ⟨.toUrl "/login", bareClearWrites⟩ := by
        simp [sessionRefreshGET, hro]
      have hstep : chainStep be (.sessionRef q ⟨acc, some rt⟩) =
          .inl (.page "/login" ⟨none, none⟩) := by
        simp [chainStep, hsr, targetToState, applyWrites, applyWrite, bareClearWrites]
      exact chainRun_of_step be hstep 1 (chain_term_clean_login be)
    | ok body =>
      obtain ⟨a2, ha2, hfr2, u2, hok2⟩ := hOK rt body hro
      cases hrv : body.refreshToken with
      | some rv =>
        have hsr : sessionRefreshGET be ⟨acc, some rt⟩ (some q) =
            ⟨.toUrl q, sessionRefreshSetWrites false a2 (some rv)⟩ := by
          simp [sessionRefreshGET, hro, ha2, hrv]
        have happ : applyWrites ⟨acc, some rt⟩ (sessionRefreshSetWrites false a2 (some rv)) =
            ⟨some a2, some rv⟩ := by
          simp [applyWrites, applyWrite, sessionRefreshSetWrites]
        have hstep : chainStep be (.sessionRef q ⟨acc, some rt⟩) =
            .inl (.page q ⟨some a2, some rv⟩) := by
          simp [chainStep, hsr, targetToState, happ]
        exact chainRun_of_step be hstep 1
          (chain_term_valid_prot be q a2 u2 (some rv) hq hqroot (Or.inr hfr2) hok2)
      | none =>
        have hsr : sessionRefreshGET be ⟨acc, some rt⟩ (some q) =
            ⟨.toUrl q, sessionRefreshSetWrites false a2 none⟩ := by
          simp [sessionRefreshGET, hro, ha2, hrv]
        have happ : applyWrites ⟨acc, some rt⟩ (sessionRefreshSetWrites false a2 none) =
            ⟨some a2, some rt⟩ := by
          simp [applyWrites, applyWrite, sessionRefreshSetWrites]
        have hstep : chainStep be (.sessionRef q ⟨acc, some rt⟩) =
            .inl (.page q ⟨some a2, some rt⟩) := by
          simp [chainStep, hsr, targetToState, happ]
        exact chainRun_of_step be hstep 1
          (chain_term_valid_prot be q a2 u2 (some rt) hq hqroot (Or.inr hfr2) hok2)

/-- Any visit to the recovery endpoint terminates within three requests. -/
theorem chain_term_sref (be : Backend) (q : String)
    (hOK : ∀ t body, be.refreshOutcome t = .ok body →
      ∃ a2, body.accessToken = some a2 ∧ be.expired a2 = false ∧
        ∃ u, be.whoami a2 = .ok u)
    (ck : Cookies) :
    (chainRun be 3 (.sessionRef q ck)).isRight = true := by
  obtain ⟨acc, r⟩ := ck
  cases r with
  | none =>
    have hsr : sessionRefreshGET be ⟨acc, none⟩ (some q) =
        ⟨.toUrl "/login", bareClearWrites⟩ := rfl
    have hstep : chainStep be (.sessionRef q ⟨acc, none⟩) =
        .inl (.page "/login" ⟨none, none⟩) := by
      simp [chainStep, hsr, targetToState, applyWrites, applyWrite, bareClearWrites]
    exact chainRun_of_step be hstep 2
      (chainRun_succ_isRight be 1 _ (chain_term_clean_login be))
  | some rt =>
    cases hro : be.refreshOutcome rt with
    | notOk =>
      have hsr : sessionRefreshGET be ⟨acc, some rt⟩ (some q) =
          ⟨.toUrl "/login", bareClearWrites⟩ := by
        simp [sessionRefreshGET, hro]
      have hstep : chainStep be (.sessionRef q ⟨acc, some rt⟩) =
          .inl (.page "/login" ⟨none, none⟩) := by
        simp [chainStep, hsr, targetToState, applyWrites, applyWrite, bareClearWrites]
      exact chainRun_of_step be hstep 2
        (chainRun_succ_isRight be 1 _ (chain_term_clean_login be))
    | thrown =>
      have hsr : sessionRefreshGET be ⟨acc, some rt⟩ (some q) =
          ⟨.toUrl "/login", bareClearWrites⟩ := by
        simp [sessionRefreshGET, hro]
      have hstep : chainStep be (.sessionRef q ⟨acc, some rt⟩) =
          .inl (.page "/login" ⟨none, none⟩) := by
        simp [chainStep, hsr, targetToState, applyWrites, applyWrite, bareClearWrites]
      exact chainRun_of_step be hstep 2
        (chainRun_succ_isRight be 1 _ (chain_term_clean_login be))
    | ok body =>
      obtain ⟨a2, ha2, hfr2, u2, hok2⟩ := hOK rt body hro
      cases hrv : body.refreshToken with
      | some rv =>
        have hsr : sessionRefreshGET be ⟨acc, some rt⟩ (some q) =
            ⟨.toUrl q, sessionRefreshSetWrites false a2 (some rv)⟩ := by
          simp [sessionRefreshGET, hro, ha2, hrv]
        have happ : applyWrites ⟨acc, some rt⟩ (sessionRefreshSetWrites false a2 (some rv)) =
            ⟨some a2, some rv⟩ := by
          simp [applyWrites, applyWrite, sessionRefreshSetWrites]
        have hstep : chainStep be (.sessionRef q ⟨acc, some rt⟩) =
            .inl (.page q ⟨some a2, some rv⟩) := by
          simp [chainStep, hsr, targetToState, happ]
        exact chainRun_of_step be hstep 2
          (chain_term_valid be q a2 u2 (some rv) (Or.inr hfr2) hok2)
      | none =>
        have hsr : sessionRefreshGET be ⟨acc, some rt⟩ (some q) =
            ⟨.toUrl q, sessionRefreshSetWrites false a2 none⟩ := by
          simp [sessionRefreshGET, hro, ha2, hrv]
        have happ : applyWrites ⟨acc, some rt⟩ (sessionRefreshSetWrites false a2 none) =
            ⟨some a2, some rt⟩ := by
          simp [applyWrites, applyWrite, sessionRefreshSetWrites]
        have hstep : chainStep be (.sessionRef q ⟨acc, some rt⟩) =
            .inl (.page q ⟨some a2, some rt⟩) := by
          simp [chainStep, hsr, targetToState, happ]
        exact chainRun_of_step be hstep 2
          (chain_term_valid be q a2 u2 (some rt) (Or.inr hfr2) hok2)

/-- A protected-path request whose fresh access token the backend rejects
with 401 goes through the recovery endpoint and terminates within three
further requests. -/
theorem chain_term_prot_unauth (be : Backend) (p a : String) (r : Option String)
    (hpub : isPublicPath p = false) (hroot : p ≠ "/")
    (hfresh : r = none ∨ be.expired a = false)
    (hw : be.whoami a = .unauthorized)
    (hOK : ∀ t body, be.refreshOutcome t = .ok body →
      ∃ a2, body.accessToken = some a2 ∧ be.expired a2 = false ∧
        ∃ u, be.whoami a2 = .ok u) :
    (chainRun be 3 (.page p ⟨some a, r⟩)).isRight = true := by
  have hm : middleware be p ⟨some a, r⟩ = ⟨.next p, [], false⟩ := by
    rw [middleware_no_refresh be p a r hfresh]
    exact mwRoute_prot p _ false (by simp) hpub hroot
  have hl : protectedLayout be ⟨some a, r⟩ (some p) = .redirect (.toSessionRefresh p) := by
    cases r <;> simp [protectedLayout, getSession, hw]
  have hstep : chainStep be (.page p ⟨some a, r⟩) = .inl (.sessionRef p ⟨some a, r⟩) := by
    simp [chainStep, hm, hpub, hl, targetToState]
  exact chainRun_of_step be hstep 2 (chain_term_sref_prot be p hpub hroot hOK _)

/-- A protected-path request whose fresh access token makes whoami throw
connection-refused renders the inline server-error view at once. -/
theorem chain_term_prot_conn (be : Backend) (p a : String) (r : Option String)
    (hpub : isPublicPath p = false) (hroot : p ≠ "/")
    (hfresh : r = none ∨ be.expired a = false)
    (hw : be.whoami a = .connRefused) :
    (chainRun be 1 (.page p ⟨some a, r⟩)).isRight = true := by
  have hm : middleware be p ⟨some a, r⟩ = ⟨.next p, [], false⟩ := by
    rw [middleware_no_refresh be p a r hfresh]
    exact mwRoute_prot p _ false (by simp) hpub hroot
  have hl : protectedLayout be ⟨some a, r⟩ (some p) =
      .renderServerError
        "Unable to connect to the server. Please ensure the backend service is running." := by
    cases r <;> simp [protectedLayout, getSession, hw]
  have hstep : chainStep be (.page p ⟨some a, r⟩) =
      .inr (.renderServerError
        "Unable to connect to the server. Please ensure the backend service is running.") := by
    simp [chainStep, hm, hpub, hl]
  exact chainRun_of_term be hstep 0

/-- Any request carrying an access token that needs no proactive refresh
terminates within four requests under a consistent backend. -/
theorem chain_term_present (be : Backend) (p a : String) (r : Option String)
    (hfresh : r = none ∨ be.expired a = false)
    (hOK : ∀ t body, be.refreshOutcome t = .ok body →
      ∃ a2, body.accessToken = some a2 ∧ be.expired a2 = false ∧
        ∃ u, be.whoami a2 = .ok u)
    (hWA : ∀ t, (∃ u, be.whoami t = .ok u) ∨ be.whoami t = .unauthorized ∨
      be.whoami t = .connRefused) :
    (chainRun be 4 (.page p ⟨some a, r⟩)).isRight = true := by
  have hA : ((some a : Option String).isSome || r.isSome) = true := by simp
  rcases hWA a with ⟨u, hok⟩ | hw | hw
  · exact chainRun_isRight_mono be (by decide) _ (chain_term_valid be p a u r hfresh hok)
  · cases hpub : isPublicPath p with
    | false =>
      by_cases hroot : p = "/"
      · subst hroot
        have hm : middleware be "/" ⟨some a, r⟩ =
            ⟨.redirect (.toUrl "/dashboard"), [], false⟩ := by
          rw [middleware_no_refresh be "/" a r hfresh]
          exact mwRoute_root _ false hA
        have hstep : chainStep be (.page "/" ⟨some a, r⟩) =
            .inl (.page "/dashboard" ⟨some a, r⟩) := by
          simp [chainStep, hm, targetToState, applyWrites]
        exact chainRun_of_step be hstep 3
          (chain_term_prot_unauth be "/dashboard" a r (by decide) (by decide) hfresh hw hOK)
      · exact chainRun_isRight_mono be (by decide) _
          (chain_term_prot_unauth be p a r hpub hroot hfresh hw hOK)
    | true =>
      have hm : middleware be p ⟨some a, r⟩ =
          ⟨.redirect (.toUrl "/dashboard"), [], false⟩ := by
        rw [middleware_no_refresh be p a r hfresh]
        exact mwRoute_auth p _ false hA hpub
      have hstep : chainStep be (.page p ⟨some a, r⟩) =
          .inl (.page "/dashboard" ⟨some a, r⟩) := by
        simp [chainStep, hm, targetToState, applyWrites]
      exact chainRun_of_step be hstep 3
        (chain_term_prot_unauth be "/dashboard" a r (by decide) (by decide) hfresh hw hOK)
  · cases hpub : isPublicPath p with
    | false =>
      by_cases hroot : p = "/"
      · subst hroot
        have hm : middleware be "/" ⟨some a, r⟩ =
            ⟨.redirect (.toUrl "/dashboard"), [], false⟩ := by
          rw [middleware_no_refresh be "/" a r hfresh]
          exact mwRoute_root _ false hA
        have hstep : chainStep be (.page "/" ⟨some a, r⟩) =
            .inl (.page "/dashboard" ⟨some a, r⟩) := by
          simp [chainStep, hm, targetToState, applyWrites]
        exact chainRun_of_step be hstep 3
          (chainRun_isRight_mono be (by decide) _
            (chain_term_prot_conn be "/dashboard" a r (by decide) (by decide) hfresh hw))
      · exact chainRun_isRight_mono be (by decide) _
          (chain_term_prot_conn be p a r hpub hroot hfresh hw)
    | true =>
      have hm : middleware be p ⟨some a, r⟩ =
          ⟨.redirect (.toUrl "/dashboard"), [], false⟩ := by
        rw [middleware_no_refresh be p a r hfresh]
        exact mwRoute_auth p _ false hA hpub
      have hstep : chainStep be (.page p ⟨some a, r⟩) =
          .inl (.page "/dashboard" ⟨some a, r⟩) := by
        simp [chainStep, hm, targetToState, applyWrites]
      exact chainRun_of_step be hstep 3
        (chainRun_isRight_mono be (by decide) _
          (chain_term_prot_conn be "/dashboard" a r (by decide) (by decide) hfresh hw))

/-- At `/dashboard`, a needed refresh that the backend answers non-ok clears
the cookies, redirects to login, and renders it: two requests. -/
theorem chain_term_refresh_notok_dash (be : Backend) (rt : String) (acc : Option String)
    (hneed : acc = none ∨ ∃ a, acc = some a ∧ be.expired a = true)
    (hro : be.refreshOutcome rt = .notOk) :
    (chainRun be 2 (.page "/dashboard" ⟨acc, some rt⟩)).isRight = true := by
  have hd1 : isPublicPath "/dashboard" = false := by decide
  have hd2 : "/dashboard" ≠ "/" := by decide
  have hm : middleware be "/dashboard" ⟨acc, some rt⟩ =
      ⟨.redirect (.toLoginCallback "/dashboard"), bareClearWrites, true⟩ := by
    rw [middleware_refresh_eq be "/dashboard" rt acc hneed]
    simp [mwRefresh, hro, mwFail, hd1, hd2]
  have hstep : chainStep be (.page "/dashboard" ⟨acc, some rt⟩) =
      .inl (.page "/login" ⟨none, none⟩) := by
    simp [chainStep, hm, targetToState, applyWrites, applyWrite, bareClearWrites]
  exact chainRun_of_step be hstep 1 (chain_term_clean_login be)

/-- Any request that triggers the middleware's proactive refresh terminates
within three requests under a consistent backend. -/
theorem chain_term_refresh (be : Backend) (p rt : String) (acc : Option String)
    (hneed : acc = none ∨ ∃ a, acc = some a ∧ be.expired a = true)
    (hNT : ∀ t, be.refreshOutcome t ≠ .thrown)
    (hOK : ∀ t body, be.refreshOutcome t = .ok body →
      ∃ a2, body.accessToken = some a2 ∧ be.expired a2 = false ∧
        ∃ u, be.whoami a2 = .ok u) :
    (chainRun be 3 (.page p ⟨acc, some rt⟩)).isRight = true := by
  have hmw := middleware_refresh_eq be p rt acc hneed
  cases hro : be.refreshOutcome rt with
  | thrown => exact absurd hro (hNT rt)
  | ok body =>
    obtain ⟨a2, ha2, hfr2, u2, hok2⟩ := hOK rt body hro
    cases hrv : body.refreshToken with
    | some rv =>
      have hm : middleware be p ⟨acc, some rt⟩ =
          ⟨.redirect (.toUrl p), middlewareSetWrites false a2 (some rv), true⟩ := by
        rw [hmw]
        simp [mwRefresh, hro, ha2, hrv]
      have happ : applyWrites ⟨acc, some rt⟩ (middlewareSetWrites false a2 (some rv)) =
          ⟨some a2, some rv⟩ := by
        simp [applyWrites, applyWrite, middlewareSetWrites]
      have hstep : chainStep be (.page p ⟨acc, some rt⟩) =
          .inl (.page p ⟨some a2, some rv⟩) := by
        simp [chainStep, hm, targetToState, happ]
      exact chainRun_of_step be hstep 2
        (chain_term_valid be p a2 u2 (some rv) (Or.inr hfr2) hok2)
    | none =>
      have hm : middleware be p ⟨acc, some rt⟩ =
          ⟨.redirect (.toUrl p), middlewareSetWrites false a2 none, true⟩ := by
        rw [hmw]
        simp [mwRefresh, hro, ha2, hrv]
      have happ : applyWrites ⟨acc, some rt⟩ (middlewareSetWrites false a2 none) =
          ⟨some a2, some rt⟩ := by
        simp [applyWrites, applyWrite, middlewareSetWrites]
      have hstep : chainStep be (.page p ⟨acc, some rt⟩) =
          .inl (.page p ⟨some a2, some rt⟩) := by
        simp [chainStep, hm, targetToState, happ]
      exact chainRun_of_step be hstep 2
        (chain_term_valid be p a2 u2 (some rt) (Or.inr hfr2) hok2)
  | notOk =>
    have hA : (acc.isSome || (some rt : Option String).isSome) = true := by simp
    cases hpub : isPublicPath p with
    | false =>
      by_cases hroot : p = "/"
      · subst hroot
        have hm : middleware be "/" ⟨acc, some rt⟩ =
            ⟨.redirect (.toUrl "/dashboard"), [], true⟩ := by
          rw [hmw]
          have hfl : mwFail "/" ⟨acc, some rt⟩ = mwRoute "/" ⟨acc, some rt⟩ true := by
            simp [mwFail]
          rw [show mwRefresh be "/" ⟨acc, some rt⟩ rt = mwFail "/" ⟨acc, some rt⟩ by
            simp [mwRefresh, hro], hfl]
          exact mwRoute_root _ true hA
        have hstep : chainStep be (.page "/" ⟨acc, some rt⟩) =
            .inl (.page "/dashboard" ⟨acc, some rt⟩) := by
          simp [chainStep, hm, targetToState, applyWrites]
        exact chainRun_of_step be hstep 2
          (chain_term_refresh_notok_dash be rt acc hneed hro)
      · have hm : middleware be p ⟨acc, some rt⟩ =
            ⟨.redirect (.toLoginCallback p), bareClearWrites, true⟩ := by
          rw [hmw]
          simp [mwRefresh, hro, mwFail, hpub, hroot]
        have hstep : chainStep be (.page p ⟨acc, some rt⟩) =
            .inl (.page "/login" ⟨none, none⟩) := by
          simp [chainStep, hm, targetToState, applyWrites, applyWrite, bareClearWrites]
        exact chainRun_of_step be hstep 2
          (chainRun_succ_isRight be 1 _ (chain_term_clean_login be))
    | true =>
      have hm : middleware be p ⟨acc, some rt⟩ =
          ⟨.redirect (.toUrl "/dashboard"), [], true⟩ := by
        rw [hmw]
        have hfl : mwFail p ⟨acc, some rt⟩ = mwRoute p ⟨acc, some rt⟩ true := by
          simp [mwFail, hpub]
        rw [show mwRefresh be p ⟨acc, some rt⟩ rt = mwFail p ⟨acc, some rt⟩ by
          simp [mwRefresh, hro], hfl]
        exact mwRoute_auth p _ true hA hpub
      have hstep : chainStep be (.page p ⟨acc, some rt⟩) =
          .inl (.page "/dashboard" ⟨acc, some rt⟩) := by
        simp [chainStep, hm, targetToState, applyWrites]
      exact chainRun_of_step be hstep 2
        (chain_term_refresh_notok_dash be rt acc hneed hro)

/-- C3 amended: within one request each layer resolves to exactly one
response and redirects at most once, to a fixed next hop; but the full
chain terminates only for consistent backends.  Whenever refresh calls do
not throw, every successful refresh yields an access token that passes the
freshness check and that whoami accepts, and whoami answers only 2xx, 401
or connection-refused, every chain — from any page or recovery-endpoint
state with any cookies — reaches a terminal response within four
requests. -/
theorem c3_chain_amended (be : Backend) (s : ChainState) (hgb : GoodBackend be) :
    (chainRun be 4 s).isRight = true := by
  obtain ⟨hNT, hOK, hWA⟩ := hgb
  cases s with
  | sessionRef q ck =>
    exact chainRun_isRight_mono be (by decide) _ (chain_term_sref be q hOK ck)
  | page p ck =>
    obtain ⟨acc, r⟩ := ck
    cases r with
    | none =>
      cases acc with
      | none => exact chainRun_isRight_mono be (by decide) _ (chain_term_clean be p)
      | some a => exact chain_term_present be p a none (Or.inl rfl) hOK hWA
    | some rt =>
      cases acc with
      | none =>
        exact chainRun_isRight_mono be (by decide) _
          (chain_term_refresh be p rt none (Or.inl rfl) hNT hOK)
      | some a =>
        cases hexp : be.expired a with
        | true =>
          exact chainRun_isRight_mono be (by decide) _
            (chain_term_refresh be p rt (some a) (Or.inr ⟨a, rfl, hexp⟩) hNT hOK)
        | false => exact chain_term_present be p a (some rt) (Or.inr hexp) hOK hWA

/-- Witness for C3 on a concrete consistent backend and start state. -/
theorem c3_chain_amended_witness :
    (chainRun plainOkBe 4 (.page "/tables" ⟨none, none⟩)).isRight = true := by
  refine c3_chain_amended plainOkBe (.page "/tables" ⟨none, none⟩) ⟨?_, ?_, ?_⟩
  · intro t
    simp [plainOkBe]
  · intro t body h
    simp [plainOkBe] at h
  · intro t
    exact Or.inl ⟨"user", rfl⟩

end IncisiveAdmin
